import Mathlib

/-!
# Verification of the CheckLogs Go SDK core

Shallow embedding of the retry-queue-backed log transport of the
checklogsdev/go-sdk repository.  The authoritative implementation is the
`CheckLogsClient` / `CheckLogsLogger` pair in `src/functions.go`; the
repository also holds an older standalone `Logger` variant
(`CheckLogs.go`), which differs in a few places noted inline.

Modelling conventions:
- Go `string` is Lean `String`; `len` on a Go string counts bytes and is
  modelled with `String.utf8ByteSize`.
- `map[string]interface{}` values are modelled as key-unique association
  lists (`Ctx`) with string values; a `nil` map is `Option.none`.
- `time.Time` instants are abstracted as `Nat` (0 is the zero value, as
  tested by `Time.IsZero`).  `time.Duration` is an `Int` of nanoseconds
  with two's-complement 64-bit wrap-around where Go arithmetic wraps.
- The HTTP layer is abstracted as a `SendOutcome` oracle: each attempt
  either fails while building the request (`http.NewRequestWithContext`
  returning an error), fails during `httpClient.Do` (DNS, refusal,
  timeout, context cancellation), or yields a response with a status
  code, status text (`resp.Status`) and body.
- `json.Marshal` of the modelled `LogData` shape (strings, ints, string
  maps, time) never fails in Go, so the marshal-error branch of
  `sendLog` is unreachable in the embedding and is not represented.
-/

namespace CheckLogsSDK

/-! ## Log levels (`LogLevel` constants, CheckLogs.go lines 21-30) -/

abbrev LogLevel := String

def LogLevelDebug : LogLevel := "debug"

def LogLevelInfo : LogLevel := "info"

def LogLevelWarning : LogLevel := "warning"

def LogLevelError : LogLevel := "error"

def LogLevelCritical : LogLevel := "critical"

/-- Membership in the `validLevels` map built in `validateLogData`
(functions.go lines 225-233) and in `isValidLogLevel` (lines 782-792). -/
def isValidLogLevel (level : LogLevel) : Bool :=
  level == LogLevelDebug || level == LogLevelInfo || level == LogLevelWarning ||
    level == LogLevelError || level == LogLevelCritical

/-! ## Context maps

A Go `map[string]interface{}` is modelled as a key-unique association
list with string values; later entries are later insertions.  `ctxAssign`
models `m[k] = v`, `ctxMerge` models `for k, v := range src { dst[k] = v }`.
-/

abbrev Ctx := List (String × String)

/-- Map lookup: the entry closest to the end of the list (the most recent
insertion) wins, matching Go map-assignment semantics. -/
def lookupCtx : Ctx → String → Option String
  | [], _ => none
  | p :: rest, k =>
    match lookupCtx rest k with
    | some v => some v
    | none => if p.1 == k then some p.2 else none

/-- `m[k] = v`: drop any existing binding of `k`, append the new one. -/
def ctxAssign (m : Ctx) (k v : String) : Ctx :=
  m.filter (fun p => !(p.1 == k)) ++ [(k, v)]

/-- `for k, v := range src { dst[k] = v }` folded over the source map. -/
def ctxMerge (dst src : Ctx) : Ctx :=
  src.foldl (fun m p => ctxAssign m p.1 p.2) dst

/-- The guarded merge `if src != nil { for k, v := range src ... }`. -/
def ctxMergeOpt (dst : Ctx) : Option Ctx → Ctx
  | none => dst
  | some src => ctxMerge dst src

/-- Byte length of `json.Marshal` applied to a string-valued map: two
braces, `"key":"value"` per entry, and a comma between entries. -/
def ctxJSONSize (m : Ctx) : Nat :=
  2 + (m.map (fun p => p.1.utf8ByteSize + p.2.utf8ByteSize + 5)).sum + (m.length - 1)

/-! ## Data model -/

/-- `LogData` (CheckLogs.go lines 32-41).  `timestamp = 0` models the Go
zero `time.Time`; a missing hostname is the zero string. -/
structure LogData where
  message : String
  level : LogLevel
  source : String
  userID : Option Int
  contextMap : Option Ctx
  timestamp : Nat
  hostname : String
deriving DecidableEq

/-- `ClientOptions` fields that the send path reads (timeout is only
passed to the HTTP client, which the outcome oracle abstracts). -/
structure ClientOptions where
  timeout : Int
  validatePayload : Bool
  baseURL : String
deriving DecidableEq

/-- The mutable state owned by one `CheckLogsClient`: the retry queue
(`retryQueue.queue`) and the stats counters (`statsManager`). -/
structure ClientState where
  queue : List LogData
  totalLogs : Nat
  totalErrors : Nat
  lastLog : Nat
deriving DecidableEq

/-- Fresh client state: `newRetryQueue` and `newStatsManager`. -/
def initialClientState : ClientState :=
  { queue := [], totalLogs := 0, totalErrors := 0, lastLog := 0 }

/-- The sdk error taxonomy: `ValidationError{Field, Message}`,
`NetworkError{Message, Cause}` (the cause is opaque to every claim), and
`APIError{StatusCode, Message, Response}`. -/
inductive SdkError where
  | validationError (field msg : String)
  | networkError (msg : String)
  | apiError (status : Nat) (msg body : String)
deriving DecidableEq

/-- `isRetriableError` (functions.go lines 703-715). -/
def isRetriableError : SdkError → Bool
  | .apiError status _ _ => 500 ≤ status || status == 429
  | .networkError _ => true
  | _ => false

/-- Outcome of one HTTP attempt, decided by the environment. -/
inductive SendOutcome where
  | reqCreateFailure
  | transportFailure
  | httpResponse (status : Nat) (statusText : String) (body : String)
deriving DecidableEq

/-! ## Validator (`validateLogData`, functions.go lines 199-238) -/

/-- `data.Context != nil && len(json.Marshal(data.Context)) > 5000`. -/
def ctxOversized (d : LogData) : Bool :=
  match d.contextMap with
  | some m => decide (5000 < ctxJSONSize m)
  | none => false

/-- `validateLogData` translated check for check in source order:
message presence, message length, source length, serialized-context
length, then level membership. -/
def validateLogData (opts : ClientOptions) (d : LogData) : Option SdkError :=
  if opts.validatePayload = false then none
  else if d.message = "" then
    some (.validationError "message" "message is required")
  else if 1024 < d.message.utf8ByteSize then
    some (.validationError "message" "message must not exceed 1024 characters")
  else if d.source ≠ "" ∧ 100 < d.source.utf8ByteSize then
    some (.validationError "source" "source must not exceed 100 characters")
  else if ctxOversized d then
    some (.validationError "context" "context must not exceed 5000 characters when serialized")
  else if isValidLogLevel d.level = false then
    some (.validationError "level" "invalid log level")
  else
    none

/-! ## Send path (`sendLog`, functions.go lines 240-295) -/

/-- `if data.Timestamp.IsZero() { data.Timestamp = time.Now() }`. -/
def withTs (now : Nat) (d : LogData) : LogData :=
  if d.timestamp = 0 then { d with timestamp := now } else d

/-- One `sendLog` call: default the timestamp, validate, bump stats,
then classify the HTTP outcome.  Returns the post-state and the error
returned to the caller (`none` on success). -/
def sendLog (opts : ClientOptions) (st : ClientState) (now : Nat)
    (outcome : SendOutcome) (data0 : LogData) : ClientState × Option SdkError :=
  let data := withTs now data0
  match validateLogData opts data with
  | some e => (st, some e)
  | none =>
    let st1 := { st with totalLogs := st.totalLogs + 1, lastLog := now }
    match outcome with
    | .reqCreateFailure =>
      ({ st1 with totalErrors := st1.totalErrors + 1 },
        some (.networkError "failed to create request"))
    | .transportFailure =>
      ({ st1 with totalErrors := st1.totalErrors + 1, queue := st1.queue ++ [data] },
        some (.networkError "request failed"))
    | .httpResponse status statusText body =>
      if 400 ≤ status then
        let st2 := { st1 with totalErrors := st1.totalErrors + 1 }
        let st3 :=
          if 500 ≤ status ∨ status = 429 then { st2 with queue := st2.queue ++ [data] }
          else st2
        (st3, some (.apiError status statusText body))
      else
        (st1, none)

/-! ## Flush (`flush`, functions.go lines 464-477) -/

/-- The resend loop of `flush`: the `i`-th resend consults the oracle at
index `i`; a non-`nil` error clears the success flag. -/
def flushLoop (opts : ClientOptions) (now : Nat) (oracle : Nat → SendOutcome) :
    Nat → ClientState → List LogData → Bool → ClientState × Bool
  | _, st, [], success => (st, success)
  | i, st, d :: rest, success =>
    let r := sendLog opts st now (oracle i) d
    flushLoop opts now oracle (i + 1) r.1 rest (success && r.2.isNone)

/-- `flush`: snapshot the queue, clear it, resend every snapshot entry
through `sendLog`, and report whether every resend succeeded. -/
def flush (opts : ClientOptions) (st : ClientState) (now : Nat)
    (oracle : Nat → SendOutcome) : ClientState × Bool :=
  flushLoop opts now oracle 0 { st with queue := [] } st.queue true

/-- `clearRetryQueue` (functions.go lines 479-482). -/
def clearRetryQueue (st : ClientState) : ClientState :=
  { st with queue := [] }

/-! ## Stats (`statsManager.GetStats`, functions.go lines 152-166) -/

/-- The `Stats` snapshot returned by `GetStats`. -/
structure Stats where
  totalLogs : Nat
  lastLog : Nat
  errorRate : ℚ
deriving DecidableEq

/-- `GetStats`: both counters are read from the same state, and the
error rate is derived at read time (float division modelled in `ℚ`). -/
def GetStats (st : ClientState) : Stats :=
  { totalLogs := st.totalLogs
    lastLog := st.lastLog
    errorRate :=
      if 0 < st.totalLogs then (st.totalErrors : ℚ) / (st.totalLogs : ℚ) * 100 else 0 }

/-! ## Logger (`CheckLogsLogger`, functions.go lines 484-634) -/

/-- The logger-specific half of `LoggerOptions` plus the embedded
`ClientOptions`. -/
structure LoggerOptions where
  client : ClientOptions
  source : String
  userID : Option Int
  defaultContext : Option Ctx
  silent : Bool
  consoleOutput : Bool
  enabledLevels : List LogLevel
  includeTimestamp : Bool
  includeHostname : Bool
deriving DecidableEq

/-- A `CheckLogsLogger`.  `clientId` models the `*CheckLogsClient`
pointer: two loggers with the same `clientId` act on the same client and
therefore on the same retry queue and stats manager. -/
structure Logger where
  clientId : Nat
  options : LoggerOptions
  defaultContext : Option Ctx
deriving DecidableEq

/-- `isLevelEnabled` (functions.go lines 543-550). -/
def isLevelEnabled (l : Logger) (level : LogLevel) : Bool :=
  l.options.enabledLevels.any (fun enabled => enabled == level)

/-- `buildLogData` (functions.go lines 553-585).  `hostname` is the
`os.Hostname()` result (`none` when it errors); the context always
starts from a fresh non-nil map. -/
def buildLogData (l : Logger) (now : Nat) (hostname : Option String)
    (level : LogLevel) (message : String) (callCtx : Option Ctx) : LogData :=
  { message := message
    level := level
    source := l.options.source
    userID := l.options.userID
    contextMap := some (ctxMergeOpt (ctxMergeOpt [] l.defaultContext) callCtx)
    timestamp := now
    hostname := match hostname with | some h => h | none => "" }

/-- One line printed by the console-echo branch of `log`: the
`fmt.Printf("%s[%s] %s\n", timestamp, level, message)` arguments. -/
structure ConsoleLine where
  ts : Option Nat
  level : LogLevel
  message : String
deriving DecidableEq

/-- The internal `log` method (functions.go lines 588-605): silent /
disabled-level short-circuit, build the entry, optional console echo,
then delegate to `Client.sendLog`. -/
def loggerLog (l : Logger) (st : ClientState) (now : Nat) (hostname : Option String)
    (outcome : SendOutcome) (level : LogLevel) (message : String)
    (callCtx : Option Ctx) : ClientState × List ConsoleLine × Option SdkError :=
  if l.options.silent || !(isLevelEnabled l level) then (st, [], none)
  else
    let data := buildLogData l now hostname level message callCtx
    let lines :=
      if l.options.consoleOutput then
        [{ ts := if l.options.includeTimestamp then some now else none
           level := level, message := message }]
      else []
    let r := sendLog l.options.client st now outcome data
    (r.1, lines, r.2)

/-- `createChild` (functions.go lines 607-634): fresh merged context,
copied options, shared client pointer. -/
def createChild (l : Logger) (extra : Option Ctx) : Logger :=
  let newContext := ctxMergeOpt (ctxMergeOpt [] l.defaultContext) extra
  { clientId := l.clientId
    options := { l.options with defaultContext := some newContext }
    defaultContext := some newContext }

/-- A logger's default context read as a map (`nil` reads as empty). -/
def defCtxOf (l : Logger) : Ctx :=
  l.defaultContext.getD []

/-! ## Exponential backoff (`exponentialBackoff`, functions.go 686-701)

`time.Duration` is int64; Go signed arithmetic wraps in two's
complement, and a shift count of 64 or more yields 0.
`9223372036854775808 = 2 ^ 63` and `18446744073709551616 = 2 ^ 64`. -/

/-- Reduce an unbounded integer to its two's-complement int64 value. -/
def int64wrap (x : Int) : Int :=
  (x + 9223372036854775808) % 18446744073709551616 - 9223372036854775808

/-- `1 << uint(attempt)` evaluated in Go `int` arithmetic, for
`attempt ≥ 1` (the non-positive case is handled before the shift). -/
def goShl1 (attempt : Int) : Int :=
  if attempt.toNat < 64 then int64wrap (2 ^ attempt.toNat) else 0

/-- `exponentialBackoff(attempt, baseDelay)` in nanoseconds. -/
def exponentialBackoff (attempt : Int) (baseDelay : Int) : Int :=
  if attempt ≤ 0 then baseDelay
  else
    let maxDelay : Int := 30 * 1000000000
    let delay := int64wrap (baseDelay * goShl1 attempt)
    if maxDelay < delay then maxDelay else delay

/-! ## Derived predicates used to state the flush characterization -/

/-- Whether one `sendLog` attempt re-enqueues its entry: validation must
pass and the failure must be a transport failure during `Do`, or an
HTTP 429 / 5xx response. -/
def attemptEnqueues (opts : ClientOptions) (now : Nat) (o : SendOutcome)
    (d : LogData) : Bool :=
  decide (validateLogData opts (withTs now d) = none) &&
    (match o with
     | .reqCreateFailure => false
     | .transportFailure => true
     | .httpResponse status _ _ => decide (500 ≤ status ∨ status = 429))

/-- Whether one `sendLog` attempt returns no error: validation passes
and the response status is below 400. -/
def attemptSucceeds (opts : ClientOptions) (now : Nat) (o : SendOutcome)
    (d : LogData) : Bool :=
  decide (validateLogData opts (withTs now d) = none) &&
    (match o with
     | .httpResponse status _ _ => decide (status < 400)
     | _ => false)

/-! ## Client histories, for the stats invariant -/

/-- One externally triggered client operation that can touch the queue
or the counters. -/
inductive ClientStep where
  | send (d : LogData) (now : Nat) (o : SendOutcome)
  | flushQueue (now : Nat) (oracle : Nat → SendOutcome)
  | clearQueue

/-- Apply one step to the client state. -/
def stepClient (opts : ClientOptions) (st : ClientState) : ClientStep → ClientState
  | .send d now o => (sendLog opts st now o d).1
  | .flushQueue now oracle => (flush opts st now oracle).1
  | .clearQueue => clearRetryQueue st

/-- Run a whole history from a fresh client. -/
def runClient (opts : ClientOptions) (steps : List ClientStep) : ClientState :=
  steps.foldl (stepClient opts) initialClientState

/-! ## The validator orders compared in claim C4

Both validators below are written as a first-failing-check scan so that
the order of the checks is explicit.  `validateInAmendedOrder` lists the
checks in the order the source performs them (context before level);
`validateInClaimedOrder` lists them in the order the specification
asserts (level before context). -/

/-- The first check whose condition fires determines the error. -/
def firstFailure (checks : List (Bool × SdkError)) : Option SdkError :=
  (checks.find? (fun c => c.1)).map (fun c => c.2)

/-- The five checks in source order: message presence, message length,
source length, serialized-context length, level membership. -/
def validateInAmendedOrder (opts : ClientOptions) (d : LogData) : Option SdkError :=
  if opts.validatePayload = false then none
  else
    firstFailure
      [(decide (d.message = ""), .validationError "message" "message is required"),
       (decide (1024 < d.message.utf8ByteSize),
         .validationError "message" "message must not exceed 1024 characters"),
       (decide (d.source ≠ "" ∧ 100 < d.source.utf8ByteSize),
         .validationError "source" "source must not exceed 100 characters"),
       (ctxOversized d,
         .validationError "context" "context must not exceed 5000 characters when serialized"),
       (!(isValidLogLevel d.level), .validationError "level" "invalid log level")]

/-- The five checks in the order asserted by the specification: level
membership before the serialized-context bound. -/
def validateInClaimedOrder (opts : ClientOptions) (d : LogData) : Option SdkError :=
  if opts.validatePayload = false then none
  else
    firstFailure
      [(decide (d.message = ""), .validationError "message" "message is required"),
       (decide (1024 < d.message.utf8ByteSize),
         .validationError "message" "message must not exceed 1024 characters"),
       (decide (d.source ≠ "" ∧ 100 < d.source.utf8ByteSize),
         .validationError "source" "source must not exceed 100 characters"),
       (!(isValidLogLevel d.level), .validationError "level" "invalid log level"),
       (ctxOversized d,
         .validationError "context" "context must not exceed 5000 characters when serialized")]

/-! ## Helper lemmas: context maps -/

/-- Left-biased choice on optional values, used to phrase the
later-layer-wins overlay semantics. -/
def orO (x y : Option String) : Option String :=
  match x with
  | some v => some v
  | none => y

theorem orO_none_right (x : Option String) : orO x none = x := by
  cases x <;> rfl

theorem lookupCtx_append (xs ys : Ctx) (k : String) :
    lookupCtx (xs ++ ys) k = orO (lookupCtx ys k) (lookupCtx xs k) := by
  induction xs with
  | nil => simp [lookupCtx, orO_none_right]
  | cons p xs ih =>
    cases h : lookupCtx ys k <;> simp [lookupCtx, ih, h, orO]

theorem lookupCtx_filter_ne (m : Ctx) (k k2 : String) (h : k2 ≠ k) :
    lookupCtx (m.filter (fun p => !(p.1 == k))) k2 = lookupCtx m k2 := by
  induction m with
  | nil => rfl
  | cons p m ih =>
    by_cases hp : p.1 = k
    · have hdrop : (p :: m).filter (fun q => !(q.1 == k)) =
          m.filter (fun q => !(q.1 == k)) := by
        simp [List.filter_cons, hp]
      have hk2 : (p.1 == k2) = false := by
        rw [hp]
        exact beq_false_of_ne (fun hc => h hc.symm)
      rw [hdrop, ih]
      cases hm : lookupCtx m k2 <;> simp [lookupCtx, hm, hk2]
    · have hkeep : (p :: m).filter (fun q => !(q.1 == k)) =
          p :: m.filter (fun q => !(q.1 == k)) := by
        simp [List.filter_cons, hp]
      rw [hkeep]
      simp [lookupCtx, ih]

theorem lookupCtx_assign (m : Ctx) (k v : String) (k2 : String) :
    lookupCtx (ctxAssign m k v) k2 = if k2 = k then some v else lookupCtx m k2 := by
  unfold ctxAssign
  rw [lookupCtx_append]
  by_cases h : k2 = k
  · simp [lookupCtx, h, orO]
  · have hk : (k == k2) = false := by
      simp
      exact fun hc => h hc.symm
    simp [lookupCtx, hk, orO, h, lookupCtx_filter_ne m k k2 h]

theorem lookupCtx_merge (a b : Ctx) (k : String) :
    lookupCtx (ctxMerge a b) k = orO (lookupCtx b k) (lookupCtx a k) := by
  induction b generalizing a with
  | nil => simp [ctxMerge, lookupCtx, orO]
  | cons p b ih =>
    have hstep : ctxMerge a (p :: b) = ctxMerge (ctxAssign a p.1 p.2) b := rfl
    rw [hstep, ih]
    cases hb : lookupCtx b k
    · simp only [lookupCtx, hb, orO, lookupCtx_assign]
      by_cases h : k = p.1
      · simp [h]
      · have hk : (p.1 == k) = false := by
          simp
          exact fun hc => h hc.symm
        simp [h, hk]
    · simp [lookupCtx, hb, orO]

theorem lookupCtx_mergeOpt (m : Ctx) (od : Option Ctx) (k : String) :
    lookupCtx (ctxMergeOpt m od) k = orO (lookupCtx (od.getD []) k) (lookupCtx m k) := by
  cases od
  · simp [ctxMergeOpt, Option.getD, lookupCtx, orO]
  · simp [ctxMergeOpt, Option.getD, lookupCtx_merge]

theorem lookupCtx_mergeOpt_nil (od : Option Ctx) (k : String) :
    lookupCtx (ctxMergeOpt [] od) k = lookupCtx (od.getD []) k := by
  rw [lookupCtx_mergeOpt]
  simp [lookupCtx, orO_none_right]

/-! ## Helper lemmas: the send path and flush -/

theorem sendLog_queue_eq (opts : ClientOptions) (st : ClientState) (now : Nat)
    (o : SendOutcome) (d : LogData) :
    (sendLog opts st now o d).1.queue =
      st.queue ++ (if attemptEnqueues opts now o d then [withTs now d] else []) := by
  cases hv : validateLogData opts (withTs now d) with
  | some e => simp [sendLog, attemptEnqueues, hv]
  | none =>
    cases o with
    | reqCreateFailure => simp [sendLog, attemptEnqueues, hv]
    | transportFailure => simp [sendLog, attemptEnqueues, hv]
    | httpResponse status statusText body =>
      by_cases h4 : 400 ≤ status
      · by_cases h5 : 500 ≤ status ∨ status = 429 <;>
          simp [sendLog, attemptEnqueues, hv, h4, h5]
      · have h5 : ¬(500 ≤ status ∨ status = 429) := by omega
        simp [sendLog, attemptEnqueues, hv, h4, h5]

theorem sendLog_isNone_eq (opts : ClientOptions) (st : ClientState) (now : Nat)
    (o : SendOutcome) (d : LogData) :
    (sendLog opts st now o d).2.isNone = attemptSucceeds opts now o d := by
  cases hv : validateLogData opts (withTs now d) with
  | some e => simp [sendLog, attemptSucceeds, hv]
  | none =>
    cases o with
    | reqCreateFailure => simp [sendLog, attemptSucceeds, hv]
    | transportFailure => simp [sendLog, attemptSucceeds, hv]
    | httpResponse status statusText body =>
      by_cases h4 : 400 ≤ status
      · by_cases h5 : 500 ≤ status ∨ status = 429 <;>
          simp [sendLog, attemptSucceeds, hv, h4, h5]
      · simp [sendLog, attemptSucceeds, hv, h4]
        omega

theorem flushLoop_spec (opts : ClientOptions) (now : Nat) (oracle : Nat → SendOutcome)
    (pending : List LogData) :
    ∀ (i : Nat) (st : ClientState) (success : Bool),
      (flushLoop opts now oracle i st pending success).1.queue =
        st.queue ++ ((List.enumFrom i pending).filter
          (fun p => attemptEnqueues opts now (oracle p.1) p.2)).map
          (fun p => withTs now p.2) ∧
      (flushLoop opts now oracle i st pending success).2 =
        (success && (List.enumFrom i pending).all
          (fun p => attemptSucceeds opts now (oracle p.1) p.2)) := by
  induction pending with
  | nil => intro i st success; simp [flushLoop, List.enumFrom]
  | cons d rest ih =>
    intro i st success
    have hq := sendLog_queue_eq opts st now (oracle i) d
    have he := sendLog_isNone_eq opts st now (oracle i) d
    have ihr := ih (i + 1) (sendLog opts st now (oracle i) d).1
      (success && (sendLog opts st now (oracle i) d).2.isNone)
    constructor
    · rw [(by rfl :
        flushLoop opts now oracle i st (d :: rest) success =
          flushLoop opts now oracle (i + 1) (sendLog opts st now (oracle i) d).1 rest
            (success && (sendLog opts st now (oracle i) d).2.isNone))]
      rw [ihr.1, hq]
      by_cases hen : attemptEnqueues opts now (oracle i) d <;>
        simp [List.enumFrom, hen, List.filter_cons]
    · rw [(by rfl :
        flushLoop opts now oracle i st (d :: rest) success =
          flushLoop opts now oracle (i + 1) (sendLog opts st now (oracle i) d).1 rest
            (success && (sendLog opts st now (oracle i) d).2.isNone))]
      rw [ihr.2, he]
      simp [List.enumFrom, List.all_cons, Bool.and_assoc]

theorem sendLog_errors_le (opts : ClientOptions) (st : ClientState) (now : Nat)
    (o : SendOutcome) (d : LogData) (h : st.totalErrors ≤ st.totalLogs) :
    (sendLog opts st now o d).1.totalErrors ≤ (sendLog opts st now o d).1.totalLogs := by
  cases hv : validateLogData opts (withTs now d) with
  | some e => simpa [sendLog, hv] using h
  | none =>
    cases o with
    | reqCreateFailure => simp [sendLog, hv]; omega
    | transportFailure => simp [sendLog, hv]; omega
    | httpResponse status statusText body =>
      by_cases h4 : 400 ≤ status
      · by_cases h5 : 500 ≤ status ∨ status = 429 <;>
          simp [sendLog, hv, h4, h5] <;> omega
      · simp [sendLog, hv, h4]; omega

theorem flushLoop_errors_le (opts : ClientOptions) (now : Nat)
    (oracle : Nat → SendOutcome) (pending : List LogData) :
    ∀ (i : Nat) (st : ClientState) (success : Bool),
      st.totalErrors ≤ st.totalLogs →
      (flushLoop opts now oracle i st pending success).1.totalErrors ≤
        (flushLoop opts now oracle i st pending success).1.totalLogs := by
  induction pending with
  | nil => intro i st success h; simpa [flushLoop] using h
  | cons d rest ih =>
    intro i st success h
    exact ih (i + 1) _ _ (sendLog_errors_le opts st now (oracle i) d h)

theorem stepClient_errors_le (opts : ClientOptions) (st : ClientState)
    (s : ClientStep) (h : st.totalErrors ≤ st.totalLogs) :
    (stepClient opts st s).totalErrors ≤ (stepClient opts st s).totalLogs := by
  cases s with
  | send d now o => exact sendLog_errors_le opts st now o d h
  | flushQueue now oracle =>
    exact flushLoop_errors_le opts now oracle st.queue 0 _ true h
  | clearQueue => simpa [stepClient, clearRetryQueue] using h

theorem runClient_errors_le (opts : ClientOptions) (steps : List ClientStep) :
    (runClient opts steps).totalErrors ≤ (runClient opts steps).totalLogs := by
  suffices hgen : ∀ (st : ClientState), st.totalErrors ≤ st.totalLogs →
      (steps.foldl (stepClient opts) st).totalErrors ≤
        (steps.foldl (stepClient opts) st).totalLogs by
    exact hgen initialClientState (by simp [initialClientState])
  induction steps with
  | nil => intro st h; simpa using h
  | cons s rest ih =>
    intro st h
    exact ih (stepClient opts st s) (stepClient_errors_le opts st s h)

theorem errorRate_bounds (st : ClientState) (h : st.totalErrors ≤ st.totalLogs) :
    0 ≤ (GetStats st).errorRate ∧ (GetStats st).errorRate ≤ 100 := by
  unfold GetStats
  dsimp only
  by_cases h0 : 0 < st.totalLogs
  · rw [if_pos h0]
    have hl : (0 : ℚ) < st.totalLogs := by exact_mod_cast h0
    have he : (st.totalErrors : ℚ) ≤ (st.totalLogs : ℚ) := by exact_mod_cast h
    constructor
    · positivity
    · calc (st.totalErrors : ℚ) / (st.totalLogs : ℚ) * 100
          ≤ 1 * 100 := by
            apply mul_le_mul_of_nonneg_right _ (by norm_num)
            exact (div_le_one hl).mpr he
        _ = 100 := by norm_num
  · rw [if_neg h0]
    norm_num

/-! ## Concrete fixtures used by witnesses and counterexamples -/

/-- Default-style client options with payload validation on. -/
def sampleOptions : ClientOptions :=
  { timeout := 30000000000, validatePayload := true, baseURL := "https://api.checklogs.dev" }

/-- A well-formed log entry. -/
def sampleEntry : LogData :=
  { message := "hello", level := "info", source := "", userID := none,
    contextMap := none, timestamp := 1, hostname := "" }

/-- An entry with an empty message. -/
def emptyMsgEntry : LogData :=
  { message := "", level := "info", source := "", userID := none,
    contextMap := none, timestamp := 1, hostname := "" }

/-- A context whose JSON serialization exceeds 5000 bytes: 51 distinct
keys, each bound to a 100-byte value. -/
def bigCtx : Ctx :=
  (List.range 51).map (fun i => (toString i, String.mk (List.replicate 100 'a')))

/-- An entry that fails both the level check and the context-size
check, so the order of those two checks is observable. -/
def badLevelBigCtxEntry : LogData :=
  { message := "m", level := "fatal", source := "", userID := none,
    contextMap := some bigCtx, timestamp := 1, hostname := "" }

/-- A logger configured silent, with every level enabled. -/
def silentLogger : Logger :=
  { clientId := 0
    options :=
      { client := sampleOptions
        source := ""
        userID := none
        defaultContext := none
        silent := true
        consoleOutput := true
        enabledLevels := [LogLevelDebug, LogLevelInfo, LogLevelWarning,
          LogLevelError, LogLevelCritical]
        includeTimestamp := true
        includeHostname := true }
    defaultContext := none }

/-! ## Claim C2 -/

/-- Claim C2: when the HTTP response has status at least 400 and the
entry passed validation, `sendLog` returns an `APIError` carrying the
status code and the response body, and the entry is appended to the
retry queue if and only if the status is 429 or at least 500; any other
4xx leaves the queue unchanged. -/
theorem sendLog_status_ge_400_returns_apiError_enqueues_iff_retriable
    (opts : ClientOptions) (st : ClientState) (now status : Nat)
    (statusText body : String) (d : LogData)
    (hv : validateLogData opts (withTs now d) = none) (hs : 400 ≤ status) :
    (sendLog opts st now (.httpResponse status statusText body) d).2 =
      some (.apiError status statusText body) ∧
    (sendLog opts st now (.httpResponse status statusText body) d).1.queue =
      (if 500 ≤ status ∨ status = 429 then st.queue ++ [withTs now d] else st.queue) := by
  by_cases h5 : 500 ≤ status ∨ status = 429 <;>
    simp [sendLog, hv, hs, h5]

/-- Witness for C2 at a concrete 503 response. -/
theorem sendLog_status_ge_400_witness :
    (sendLog sampleOptions initialClientState 7
      (.httpResponse 503 "503 Service Unavailable" "oops") sampleEntry).2 =
        some (.apiError 503 "503 Service Unavailable" "oops") ∧
    (sendLog sampleOptions initialClientState 7
      (.httpResponse 503 "503 Service Unavailable" "oops") sampleEntry).1.queue =
      (if 500 ≤ 503 ∨ 503 = 429 then
          initialClientState.queue ++ [withTs 7 sampleEntry]
        else initialClientState.queue) :=
  sendLog_status_ge_400_returns_apiError_enqueues_iff_retriable
    sampleOptions initialClientState 7 503 "503 Service Unavailable" "oops" sampleEntry
    (by decide) (by decide)

/-! ## Claim C3 -/

/-- Claim C3 counterexample: a request-construction failure (the
`http.NewRequestWithContext` error branch) makes `sendLog` return a
`NetworkError`, yet the retry queue stays empty — refuting the claim
that every `NetworkError` returned by `Log` implies the entry was
enqueued. -/
theorem sendLog_reqCreateFailure_networkError_not_enqueued :
    (sendLog sampleOptions initialClientState 7 .reqCreateFailure sampleEntry).2 =
      some (.networkError "failed to create request") ∧
    (sendLog sampleOptions initialClientState 7 .reqCreateFailure sampleEntry).1.queue = [] := by
  decide

/-- Claim C3 as amended: a failure of the executed request (`Do`
returning an error: connection failure, timeout, cancellation) yields a
`NetworkError` and enqueues the entry, while a request-construction
failure yields a `NetworkError` without enqueueing. -/
theorem sendLog_transport_failure_enqueues_reqCreate_does_not
    (opts : ClientOptions) (st : ClientState) (now : Nat) (d : LogData)
    (hv : validateLogData opts (withTs now d) = none) :
    (sendLog opts st now .transportFailure d).2 =
      some (.networkError "request failed") ∧
    (sendLog opts st now .transportFailure d).1.queue = st.queue ++ [withTs now d] ∧
    (sendLog opts st now .reqCreateFailure d).2 =
      some (.networkError "failed to create request") ∧
    (sendLog opts st now .reqCreateFailure d).1.queue = st.queue := by
  simp [sendLog, hv]

/-- Witness for the amended C3 at a concrete entry. -/
theorem sendLog_transport_failure_witness :
    (sendLog sampleOptions initialClientState 7 .transportFailure sampleEntry).2 =
      some (.networkError "request failed") ∧
    (sendLog sampleOptions initialClientState 7 .transportFailure sampleEntry).1.queue =
      initialClientState.queue ++ [withTs 7 sampleEntry] ∧
    (sendLog sampleOptions initialClientState 7 .reqCreateFailure sampleEntry).2 =
      some (.networkError "failed to create request") ∧
    (sendLog sampleOptions initialClientState 7 .reqCreateFailure sampleEntry).1.queue =
      initialClientState.queue :=
  sendLog_transport_failure_enqueues_reqCreate_does_not
    sampleOptions initialClientState 7 sampleEntry (by decide)

/-! ## Claim C5 -/

/-- Claim C5: with payload validation enabled, an entry whose message is
empty or longer than 1024 bytes makes `sendLog` return a
`ValidationError` on field `message` while the client state — retry
queue and stats — is completely unchanged, whatever the network would
have answered (the outcome is universally quantified, so no network
call is observable). -/
theorem sendLog_invalid_message_validationError_no_side_effect
    (opts : ClientOptions) (st : ClientState) (now : Nat) (o : SendOutcome)
    (d : LogData) (hval : opts.validatePayload = true)
    (hmsg : d.message = "" ∨ 1024 < d.message.utf8ByteSize) :
    sendLog opts st now o d =
      (st, some (.validationError "message"
        (if d.message = "" then "message is required"
         else "message must not exceed 1024 characters"))) := by
  have hm : (withTs now d).message = d.message := by
    unfold withTs; split <;> rfl
  rcases hmsg with h | h
  · have hv : validateLogData opts (withTs now d) =
        some (.validationError "message" "message is required") := by
      unfold validateLogData
      simp [hval, hm, h]
    simp [sendLog, hv, h]
  · have hne : ¬d.message = "" := by
      intro he
      rw [he] at h
      simp [String.utf8ByteSize] at h
    have hv : validateLogData opts (withTs now d) =
        some (.validationError "message" "message must not exceed 1024 characters") := by
      unfold validateLogData
      simp [hval, hm, h, hne]
    simp [sendLog, hv, hne]

/-- Witness for C5 at a concrete empty-message entry. -/
theorem sendLog_invalid_message_witness :
    sendLog sampleOptions initialClientState 7 .transportFailure emptyMsgEntry =
      (initialClientState, some (.validationError "message"
        (if emptyMsgEntry.message = "" then "message is required"
         else "message must not exceed 1024 characters"))) :=
  sendLog_invalid_message_validationError_no_side_effect
    sampleOptions initialClientState 7 .transportFailure emptyMsgEntry
    (by decide) (Or.inl (by decide))

/-! ## Claim C7 -/

/-- Claim C7: when the logger is silent, or the level is not in
`enabledLevels`, the internal `log` method returns immediately: no
error, no console line, and the client state (retry queue and stats)
untouched. -/
theorem loggerLog_silent_or_disabled_no_effect
    (l : Logger) (st : ClientState) (now : Nat) (hostname : Option String)
    (o : SendOutcome) (level : LogLevel) (message : String) (callCtx : Option Ctx)
    (h : l.options.silent = true ∨ isLevelEnabled l level = false) :
    loggerLog l st now hostname o level message callCtx = (st, [], none) := by
  rcases h with h | h <;> simp [loggerLog, h]

/-- Witness for C7 on a silent logger. -/
theorem loggerLog_silent_witness :
    loggerLog silentLogger initialClientState 7 none .transportFailure
      LogLevelInfo "hello" none = (initialClientState, [], none) :=
  loggerLog_silent_or_disabled_no_effect silentLogger initialClientState 7 none
    .transportFailure LogLevelInfo "hello" none (Or.inl (by decide))

/-! ## Claim C8 -/

/-- Claim C8: `GetStats` derives the error rate at read time from the
two counters of one state snapshot: it is `100 * totalErrors /
totalLogs` when `totalLogs` is positive and exactly `0` when
`totalLogs = 0` (real division, modelled in `ℚ`). -/
theorem getStats_errorRate_formula (st : ClientState) :
    (GetStats st).errorRate =
      if st.totalLogs = 0 then 0
      else 100 * (st.totalErrors : ℚ) / (st.totalLogs : ℚ) := by
  unfold GetStats
  dsimp only
  by_cases h : st.totalLogs = 0
  · simp [h]
  · have hp : 0 < st.totalLogs := Nat.pos_of_ne_zero h
    rw [if_pos hp, if_neg h]
    ring

/-! ## Claim C1 -/

/-- Claim C1 counterexample: one queued entry whose resend gets HTTP
404.  The resend fails (`flush` returns `false`, so K−M = 1), yet the
queue afterwards holds 0 entries, not K−M = 1: non-retriable failures
are dropped, refuting the claim that exactly the K−M failed entries
remain queued. -/
theorem flush_drops_nonretriable_failures :
    (flush sampleOptions { initialClientState with queue := [sampleEntry] } 7
      (fun _ => .httpResponse 404 "404 Not Found" "nf")).2 = false ∧
    (flush sampleOptions { initialClientState with queue := [sampleEntry] } 7
      (fun _ => .httpResponse 404 "404 Not Found" "nf")).1.queue = [] := by
  decide

/-- Claim C1 as amended: `flush` snapshots and clears the queue, resends
every snapshot entry, and returns `true` exactly when every resend
succeeded; the queue afterwards contains, in order, exactly those
snapshot entries whose resend failed with an enqueueing failure
(transport failure, or HTTP 429 / 5xx) — so its size equals the number
of failures K−M precisely when every failure this round was retriable,
and is smaller when some failure was terminal. -/
theorem flush_requeues_exactly_retriable_failures
    (opts : ClientOptions) (st : ClientState) (now : Nat)
    (oracle : Nat → SendOutcome) :
    (flush opts st now oracle).1.queue =
      ((st.queue.enum.filter
        (fun p => attemptEnqueues opts now (oracle p.1) p.2)).map
        (fun p => withTs now p.2)) ∧
    (flush opts st now oracle).2 =
      st.queue.enum.all (fun p => attemptSucceeds opts now (oracle p.1) p.2) := by
  have h := flushLoop_spec opts now oracle st.queue 0 { st with queue := [] } true
  unfold flush
  constructor
  · rw [h.1]
    simp [List.enum]
  · rw [h.2]
    simp [List.enum]

/-! ## Claim C4 -/

/-- Claim C4 counterexample: an entry with an invalid level and an
oversized context.  The claimed check order (level before context)
reports the `level` field, but `validateLogData` reports the `context`
field: the source checks the serialized-context bound before level
membership. -/
theorem validateLogData_checks_context_before_level :
    validateLogData sampleOptions badLevelBigCtxEntry =
      some (.validationError "context"
        "context must not exceed 5000 characters when serialized") ∧
    validateInClaimedOrder sampleOptions badLevelBigCtxEntry =
      some (.validationError "level" "invalid log level") := by
  constructor <;> decide

/-- Claim C4 as amended: with payload validation enabled the validator
performs its checks in this order — message presence, message length,
source length (only for a non-empty source), serialized-context length,
and finally level membership — and the first failing check determines
the field and message of the returned `ValidationError`. -/
theorem validateLogData_eq_amended_order (opts : ClientOptions) (d : LogData) :
    validateLogData opts d = validateInAmendedOrder opts d := by
  unfold validateLogData validateInAmendedOrder firstFailure
  by_cases h0 : opts.validatePayload = false
  · simp [h0]
  · by_cases h1 : d.message = "" <;>
      by_cases h2 : 1024 < d.message.utf8ByteSize <;>
        by_cases h3 : d.source ≠ "" ∧ 100 < d.source.utf8ByteSize <;>
          by_cases h4 : ctxOversized d = true <;>
            by_cases h5 : isValidLogLevel d.level = false <;>
              simp [h0, h1, h2, h3, h4, h5, List.find?]

/-! ## Claim C6 -/

/-- Claim C6: `createChild` returns a logger on the same underlying
client (same `clientId`, hence the same retry queue and stats), whose
default context is the parent's overlaid by the extra context with
child keys winning, and a grandchild's context — both its stored
default context and the context actually emitted by `buildLogData` —
is grandparent overlaid by parent additions overlaid by its own
additions, later layers winning.  Parent loggers are values here, so
child creation cannot mutate them; in the source the child builds a
fresh merged map, never writing through the parent's. -/
theorem createChild_shares_client_and_overlays_context
    (l : Logger) (c1 c2 : Ctx) (now : Nat) (hostname : Option String)
    (level : LogLevel) (message : String) (k : String) :
    (createChild l (some c1)).clientId = l.clientId ∧
    lookupCtx (defCtxOf (createChild l (some c1))) k =
      orO (lookupCtx c1 k) (lookupCtx (defCtxOf l) k) ∧
    lookupCtx (defCtxOf (createChild (createChild l (some c1)) (some c2))) k =
      orO (lookupCtx c2 k) (orO (lookupCtx c1 k) (lookupCtx (defCtxOf l) k)) ∧
    lookupCtx ((buildLogData (createChild (createChild l (some c1)) (some c2))
        now hostname level message none).contextMap.getD []) k =
      orO (lookupCtx c2 k) (orO (lookupCtx c1 k) (lookupCtx (defCtxOf l) k)) := by
  have hchild : ∀ (lg : Logger) (c : Ctx),
      lookupCtx (defCtxOf (createChild lg (some c))) k =
        orO (lookupCtx c k) (lookupCtx (defCtxOf lg) k) := by
    intro lg c
    show lookupCtx (ctxMergeOpt (ctxMergeOpt [] lg.defaultContext) (some c)) k = _
    rw [lookupCtx_mergeOpt, lookupCtx_mergeOpt_nil]
    rfl
  refine ⟨rfl, hchild l c1, ?_, ?_⟩
  · rw [hchild (createChild l (some c1)) c2, hchild l c1]
  · have hb : ((buildLogData (createChild (createChild l (some c1)) (some c2))
        now hostname level message none).contextMap).getD [] =
          ctxMergeOpt []
            (createChild (createChild l (some c1)) (some c2)).defaultContext := rfl
    rw [hb, lookupCtx_mergeOpt_nil]
    show lookupCtx (defCtxOf (createChild (createChild l (some c1)) (some c2))) k = _
    rw [hchild (createChild l (some c1)) c2, hchild l c1]

/-! ## Claim C9 -/

/-- Claim C9: after any history of `sendLog`, `flush` and `clear`
operations from a fresh client, `totalErrors ≤ totalLogs` — errors are
only counted on attempts that already counted a log — and therefore the
derived `GetStats` error rate always lies in `[0, 100]`. -/
theorem runClient_errorRate_in_range (opts : ClientOptions) (steps : List ClientStep) :
    (runClient opts steps).totalErrors ≤ (runClient opts steps).totalLogs ∧
    0 ≤ (GetStats (runClient opts steps)).errorRate ∧
    (GetStats (runClient opts steps)).errorRate ≤ 100 := by
  have h := runClient_errors_le opts steps
  exact ⟨h, (errorRate_bounds _ h).1, (errorRate_bounds _ h).2⟩

/-! ## Claim C10 -/

theorem int64wrap_eq_self (x : Int) (h1 : -9223372036854775808 ≤ x)
    (h2 : x < 9223372036854775808) : int64wrap x = x := by
  unfold int64wrap
  omega

/-- Claim C10 counterexample: at `attempt = 63` and `baseDelay = 1` the
shifted multiplication overflows int64 and `exponentialBackoff` returns
`-2^63` nanoseconds — not a strictly positive duration, refuting the
claim for overflowing attempt values. -/
theorem exponentialBackoff_overflow_negative :
    exponentialBackoff 63 1 = -9223372036854775808 ∧ exponentialBackoff 63 1 < 0 := by
  constructor <;> decide

/-- Claim C10 as amended: for `attempt ≥ 1` and `0 < baseDelay ≤ 30` s
the result never exceeds the 30-second cap, and it is strictly positive
provided the shifted multiplication does not overflow int64
(`attempt < 63` and `baseDelay * 2 ^ attempt < 2^63`); overflowing
attempts may yield zero or negative results. -/
theorem exponentialBackoff_bounds (attempt baseDelay : Int)
    (h1 : 1 ≤ attempt) (h2 : 0 < baseDelay) (_h3 : baseDelay ≤ 30 * 1000000000) :
    exponentialBackoff attempt baseDelay ≤ 30 * 1000000000 ∧
    (attempt < 63 → baseDelay * 2 ^ attempt.toNat < 9223372036854775808 →
      0 < exponentialBackoff attempt baseDelay) := by
  have hnot : ¬attempt ≤ 0 := by omega
  unfold exponentialBackoff
  rw [if_neg hnot]
  constructor
  · dsimp only
    split
    · omega
    · omega
  · intro ha hov
    have ha63 : attempt.toNat < 63 := by omega
    have hp1 : (0 : Int) < 2 ^ attempt.toNat := pow_pos (by norm_num) _
    have hplt : (2 : Int) ^ attempt.toNat < 9223372036854775808 := by
      calc (2 : Int) ^ attempt.toNat < 2 ^ 63 := by
            exact pow_lt_pow_right₀ (by norm_num) ha63
        _ = 9223372036854775808 := by norm_num
    have hsh : goShl1 attempt = 2 ^ attempt.toNat := by
      unfold goShl1
      rw [if_pos (by omega)]
      exact int64wrap_eq_self _ (by linarith) hplt
    have hmul0 : 0 < baseDelay * 2 ^ attempt.toNat := mul_pos h2 hp1
    have hw : int64wrap (baseDelay * 2 ^ attempt.toNat) = baseDelay * 2 ^ attempt.toNat :=
      int64wrap_eq_self _ (by linarith) hov
    dsimp only
    rw [hsh, hw]
    split
    · norm_num
    · exact hmul0

/-- Witness for the amended C10: attempt 3 with a one-second base delay
gives a positive, capped delay. -/
theorem exponentialBackoff_bounds_witness :
    exponentialBackoff 3 1000000000 ≤ 30 * 1000000000 ∧
    0 < exponentialBackoff 3 1000000000 :=
  ⟨(exponentialBackoff_bounds 3 1000000000 (by norm_num) (by norm_num) (by norm_num)).1,
   (exponentialBackoff_bounds 3 1000000000 (by norm_num) (by norm_num) (by norm_num)).2
     (by norm_num) (by decide)⟩

end CheckLogsSDK
